import Mathlib

/-!
# Rate-limit / quota-enforcement subsystem: a shallow embedding

This development embeds the server-side quota enforcement edge function of the
can-render-studio repository (the `Deno.serve` handler together with its helper
functions `sanitizeFingerprint`, `createSecureAnonymousId`, `validateRequest`,
and the relational store it manipulates: `user_usage`, `anonymous_usage`,
`generation_logs`).

Modelling decisions, all driven by the source:
* JavaScript strings are Lean `String`s; the falsy test `!fingerprint` on a
  string is `fingerprint = ""` (the request decoder yields `""` for an absent
  field as well, which JavaScript treats identically under `!`).
* `throw` / `.single()` error plumbing: a helper that can throw returns
  `Option`; a thrown error reaching the handler's catch-all produces the
  HTTP 500 response, exactly as in the source.
* The SHA-256 digest taken by `crypto.subtle.digest` is implemented in full
  (FIPS 180-4) over `Nat` with explicit `% 2^32` truncation, and was checked
  against external test vectors; `encodeHex` is the deno std lowercase hex
  encoder.
* The three Supabase tables are lists of rows; `.single()` returns a row only
  when the filter matches exactly one row (else the JS code falls back to `0`
  through `data?.generations_used || 0`); `.upsert` with an `onConflict` key
  replaces the conflicting row or appends a fresh one.
* The wall clock enters only through the derived strings `today` and
  `resetTime`; they are supplied as an environment to the handler.
* Each handler invocation is one atomic step except where a claim is about
  interleavings: the record branch is split at its store round-trips into the
  usage read (`recordUsedFor`) and the guard+upsert+log tail
  (`recordWritePhase`), mirroring the `await` boundaries in the source, and
  `recordBranch` (used by the sequential handler) is their composition.
-/

set_option maxRecDepth 16000

/-- Daily cap for anonymous callers (source constant `ANONYMOUS_DAILY_LIMIT`). -/
def ANONYMOUS_DAILY_LIMIT : Nat := 5

/-- Daily cap for authenticated callers (source constant `AUTHENTICATED_DAILY_LIMIT`). -/
def AUTHENTICATED_DAILY_LIMIT : Nat := 10

/-- Maximum accepted fingerprint length (source constant `MAX_FINGERPRINT_LENGTH`). -/
def MAX_FINGERPRINT_LENGTH : Nat := 500

/-- The character class kept by the regex replace of `[^a-zA-Z0-9]` with `""`. -/
def isAlnumChar (c : Char) : Bool :=
  (decide ('a' ≤ c) && decide (c ≤ 'z')) ||
  (decide ('A' ≤ c) && decide (c ≤ 'Z')) ||
  (decide ('0' ≤ c) && decide (c ≤ '9'))

/-- `sanitizeFingerprint`: throws (`none`) when the fingerprint is falsy (empty)
or longer than `MAX_FINGERPRINT_LENGTH`; otherwise removes every character
outside `[a-zA-Z0-9]` and truncates to `MAX_FINGERPRINT_LENGTH` characters. -/
def sanitizeFingerprint (fingerprint : String) : Option String :=
  if fingerprint = "" ∨ fingerprint.length > MAX_FINGERPRINT_LENGTH then none
  else some (String.mk ((fingerprint.toList.filter isAlnumChar).take MAX_FINGERPRINT_LENGTH))

/-- UTF-8 encoding of a single scalar value, as `TextEncoder` produces. -/
def utf8Char (c : Char) : List Nat :=
  let n := c.toNat
  if n < 128 then [n]
  else if n < 2048 then [192 + n / 64, 128 + n % 64]
  else if n < 65536 then [224 + n / 4096, 128 + (n / 64) % 64, 128 + n % 64]
  else [240 + n / 262144, 128 + (n / 4096) % 64, 128 + (n / 64) % 64, 128 + n % 64]

/-- UTF-8 bytes of a string (`new TextEncoder().encode(s)`). -/
def utf8Bytes (s : String) : List Nat :=
  (s.toList.map utf8Char).flatten

/-- Truncate to a 32-bit word. -/
def w32 (n : Nat) : Nat := n % 4294967296

/-- 32-bit right rotation of a word. -/
def rotr (s n : Nat) : Nat := n / 2 ^ s + n % 2 ^ s * 2 ^ (32 - s)

/-- SHA-256 Ch function (bitwise choose). -/
def shaCh (x y z : Nat) : Nat := Nat.xor (Nat.land x y) (Nat.land (Nat.xor x 4294967295) z)

/-- SHA-256 Maj function (bitwise majority). -/
def shaMaj (x y z : Nat) : Nat := Nat.xor (Nat.land x y) (Nat.xor (Nat.land x z) (Nat.land y z))

/-- SHA-256 Σ0. -/
def bigSigma0 (x : Nat) : Nat := Nat.xor (rotr 2 x) (Nat.xor (rotr 13 x) (rotr 22 x))

/-- SHA-256 Σ1. -/
def bigSigma1 (x : Nat) : Nat := Nat.xor (rotr 6 x) (Nat.xor (rotr 11 x) (rotr 25 x))

/-- SHA-256 σ0. -/
def smallSigma0 (x : Nat) : Nat := Nat.xor (rotr 7 x) (Nat.xor (rotr 18 x) (x / 8))

/-- SHA-256 σ1. -/
def smallSigma1 (x : Nat) : Nat := Nat.xor (rotr 17 x) (Nat.xor (rotr 19 x) (x / 1024))

/-- The 64 SHA-256 round constants of FIPS 180-4 (the fractional parts of the
cube roots of the first 64 primes), written in decimal. -/
def shaK : List Nat :=
  [1116352408, 1899447441, 3049323471, 3921009573, 961987163,
   1508970993, 2453635748, 2870763221, 3624381080, 310598401,
   607225278, 1426881987, 1925078388, 2162078206, 2614888103,
   3248222580, 3835390401, 4022224774, 264347078, 604807628,
   770255983, 1249150122, 1555081692, 1996064986, 2554220882,
   2821834349, 2952996808, 3210313671, 3336571891, 3584528711,
   113926993, 338241895, 666307205, 773529912, 1294757372,
   1396182291, 1695183700, 1986661051, 2177026350, 2456956037,
   2730485921, 2820302411, 3259730800, 3345764771, 3516065817,
   3600352804, 4094571909, 275423344, 430227734, 506948616,
   659060556, 883997877, 958139571, 1322822218, 1537002063,
   1747873779, 1955562222, 2024104815, 2227730452, 2361852424,
   2428436474, 2756734187, 3204031479, 3329325298]

/-- The initial SHA-256 hash state of FIPS 180-4 (the fractional parts of the
square roots of the first 8 primes), written in decimal. -/
def shaH0 : List Nat :=
  [1779033703, 3144134277, 1013904242, 2773480762, 1359893119,
   2600822924, 528734635, 1541459225]

/-- Big-endian byte expansion of a number, fixed width. -/
def beBytes : Nat → Nat → List Nat
  | 0, _ => []
  | k + 1, n => beBytes k (n / 256) ++ [n % 256]

/-- SHA-256 message padding: append `0x80`, zero bytes up to 56 mod 64, then
the 64-bit big-endian bit length. -/
def sha256pad (msg : List Nat) : List Nat :=
  let l := msg.length
  let k := (119 - l % 64) % 64
  msg ++ 128 :: List.replicate k 0 ++ beBytes 8 (8 * l)

/-- Pack bytes into big-endian 32-bit words. -/
def toWords : List Nat → List Nat
  | b0 :: b1 :: b2 :: b3 :: rest => (((b0 * 256 + b1) * 256 + b2) * 256 + b3) :: toWords rest
  | _ => []

/-- Extend the 16 block words by `k` message-schedule words. -/
def extendW (ws : List Nat) : Nat → List Nat
  | 0 => ws
  | k + 1 =>
    let i := ws.length
    let w := w32 (smallSigma1 (ws.getD (i - 2) 0) + ws.getD (i - 7) 0 +
                  smallSigma0 (ws.getD (i - 15) 0) + ws.getD (i - 16) 0)
    extendW (ws ++ [w]) k

/-- One SHA-256 compression round on the eight-word working state. -/
def shaRound (st : List Nat) (kw : Nat × Nat) : List Nat :=
  match st with
  | [a, b, c, d, e, f, g, h] =>
    let t1 := w32 (h + bigSigma1 e + shaCh e f g + kw.1 + kw.2)
    let t2 := w32 (bigSigma0 a + shaMaj a b c)
    [w32 (t1 + t2), a, b, c, w32 (d + t1), e, f, g]
  | other => other

/-- Compress one 64-byte block into the running hash state. -/
def shaCompress (hs : List Nat) (block : List Nat) : List Nat :=
  let ws := extendW (toWords block) 48
  let st := (shaK.zip ws).foldl shaRound hs
  (hs.zip st).map (fun p => w32 (p.1 + p.2))

/-- Split a byte list into 64-byte chunks; the fuel argument (instantiated
with the list length, an upper bound on the chunk count) keeps the recursion
structural so the kernel can evaluate it. -/
def chunks64Go : Nat → List Nat → List (List Nat)
  | 0, _ => []
  | _, [] => []
  | fuel + 1, x :: xs => (x :: xs.take 63) :: chunks64Go fuel (xs.drop 63)

/-- Split a byte list into 64-byte chunks. -/
def chunks64 (l : List Nat) : List (List Nat) := chunks64Go l.length l

/-- SHA-256 digest (32 bytes) of a byte list. -/
def sha256 (msg : List Nat) : List Nat :=
  ((chunks64 (sha256pad msg)).foldl shaCompress shaH0).flatMap (beBytes 4)

/-- Lowercase hex digit. -/
def hexDigit (n : Nat) : Char :=
  if n < 10 then Char.ofNat (48 + n) else Char.ofNat (87 + n)

/-- Lowercase hex encoding of a byte list (deno std `encodeHex`). -/
def encodeHex (bs : List Nat) : String :=
  String.mk ((bs.map (fun b => [hexDigit (b / 16), hexDigit (b % 16)])).flatten)

/-- The hash step of `createSecureAnonymousId`, applied to the already
sanitized fingerprint: hex-encoded SHA-256 of `ip + ":" + sanitizedFingerprint`. -/
def secureIdOfSanitized (ip sanitizedFingerprint : String) : String :=
  encodeHex (sha256 (utf8Bytes (ip ++ ":" ++ sanitizedFingerprint)))

/-- `createSecureAnonymousId`: sanitize the fingerprint (propagating its throw
as `none`), then hash `ip + ":" + sanitizedFingerprint`. -/
def createSecureAnonymousId (ip fingerprint : String) : Option String :=
  (sanitizeFingerprint fingerprint).map (secureIdOfSanitized ip)

/-- A row of the `anonymous_usage` table (columns the handler reads/writes). -/
structure AnonRow where
  anonymousId : String
  ipAddress : String
  fingerprint : String
  date : String
  generationsUsed : Nat
deriving DecidableEq

/-- A row of the `user_usage` table (columns the handler reads/writes). -/
structure UserRow where
  userId : String
  date : String
  generationsUsed : Nat
deriving DecidableEq

/-- A row of the `generation_logs` audit table. -/
structure LogEntry where
  userId : Option String
  anonymousId : Option String
  ipAddress : String
  fingerprint : String
  success : Bool
  errorMessage : Option String
  limitType : String
  generationsBefore : Nat
  generationsAfter : Nat
deriving DecidableEq

/-- The durable quota store: the three tables the edge function touches. -/
structure Store where
  userUsage : List UserRow
  anonymousUsage : List AnonRow
  generationLogs : List LogEntry
deriving DecidableEq

/-- The store before any operation: all three tables empty. -/
def emptyStore : Store := ⟨[], [], []⟩

/-- `.single()` on a projected column followed by `data?.generations_used || 0`:
yields the value only when the filter matched exactly one row, else `0`. -/
def singleUsage (l : List Nat) : Nat :=
  match l with
  | [u] => u
  | _ => 0

/-- The `user_usage` lookup both branches perform for an authenticated user:
select `generations_used` where `user_id = uid` and `date = today`, `.single()`. -/
def userUsageFor (st : Store) (uid today : String) : Nat :=
  singleUsage ((st.userUsage.filter
    (fun r => decide (r.userId = uid ∧ r.date = today))).map (fun r => r.generationsUsed))

/-- The `anonymous_usage` own-row lookup: select `generations_used` where
`anonymous_id = aid` and `date = today`, `.single()`. -/
def anonOwnUsage (st : Store) (aid today : String) : Nat :=
  singleUsage ((st.anonymousUsage.filter
    (fun r => decide (r.anonymousId = aid ∧ r.date = today))).map (fun r => r.generationsUsed))

/-- The check branch's cross-IP query: today's `anonymous_usage` rows with the
caller's IP address but a different `anonymous_id`. -/
def crossIpRows (st : Store) (ip aid today : String) : List AnonRow :=
  st.anonymousUsage.filter
    (fun r => decide (r.ipAddress = ip ∧ r.date = today ∧ r.anonymousId ≠ aid))

/-- The record branch's IP query: all of today's `anonymous_usage` rows with
the caller's IP address (the own row is not excluded). -/
def ipRowsAll (st : Store) (ip today : String) : List AnonRow :=
  st.anonymousUsage.filter (fun r => decide (r.ipAddress = ip ∧ r.date = today))

/-- `rows.reduce((sum, record) => sum + record.generations_used, 0)`. -/
def sumUsed (rows : List AnonRow) : Nat :=
  rows.foldl (fun s r => s + r.generationsUsed) 0

/-- The check branch's effective anonymous usage: own row versus the summed
usage of the other fingerprints on the same IP (source lines 130-157). -/
def checkAnonUsage (st : Store) (ip aid today : String) : Nat :=
  let own := anonOwnUsage st aid today
  let ipUsage := crossIpRows st ip aid today
  let additionalAnonymousUsage := if ipUsage.length > 0 then sumUsed ipUsage else 0
  max own additionalAnonymousUsage

/-- The record branch's re-derived anonymous usage: own row versus the summed
usage of all rows on the same IP, the own row included (source lines 190-208). -/
def recordAnonUsage (st : Store) (ip aid today : String) : Nat :=
  let anonymousUsage := anonOwnUsage st aid today
  let totalIpUsage := sumUsed (ipRowsAll st ip today)
  max anonymousUsage totalIpUsage

/-- `.upsert` on `user_usage` with `onConflict: 'user_id,date'`: replace the
conflicting row or append a fresh one. -/
def upsertUserUsage (rows : List UserRow) (uid today : String) (used : Nat) : List UserRow :=
  if rows.any (fun r => decide (r.userId = uid ∧ r.date = today)) then
    rows.map (fun r => if r.userId = uid ∧ r.date = today then ⟨uid, today, used⟩ else r)
  else rows ++ [⟨uid, today, used⟩]

/-- `.upsert` on `anonymous_usage` with `onConflict: 'anonymous_id,date'`:
replace the conflicting row or append a fresh one. -/
def upsertAnonUsage (rows : List AnonRow) (aid ip fp today : String) (used : Nat) :
    List AnonRow :=
  if rows.any (fun r => decide (r.anonymousId = aid ∧ r.date = today)) then
    rows.map (fun r =>
      if r.anonymousId = aid ∧ r.date = today then ⟨aid, ip, fp, today, used⟩ else r)
  else rows ++ [⟨aid, ip, fp, today, used⟩]

/-- The JSON body of a rate-limit request (interface `RateLimitRequest`);
an absent `fingerprint` decodes to `""` and an absent `success` to `false`,
matching their falsy treatment in the source. -/
structure RateLimitRequest where
  action : String
  fingerprint : String
  success : Bool
  errorMessage : Option String
deriving DecidableEq

/-- The slice of an incoming HTTP request the handler inspects. `authUser` is
the auth service's answer for the presented bearer token (`none`: validation
failed or no token), and `body = none` models a body `req.json()` throws on. -/
structure HttpRequest where
  method : String
  xForwardedFor : Option String
  xRealIp : Option String
  cfConnectingIp : Option String
  authHeader : Option String
  authUser : Option String
  body : Option RateLimitRequest
deriving DecidableEq

/-- The JSON body of a check response (interface `RateLimitResponse`). -/
structure RateLimitResponse where
  canGenerate : Bool
  generationsUsed : Nat
  generationsRemaining : Nat
  resetTime : String
  isAuthenticated : Bool
  limitType : String
deriving DecidableEq

/-- The JSON bodies the handler can produce. -/
inductive ResponseBody where
  | ok
  | errorMsg (msg : String)
  | checkResult (r : RateLimitResponse)
  | limitExceeded (msg : String) (canGenerate : Bool) (generationsUsed generationsRemaining : Nat)
  | recordResult (success : Bool) (generationsUsed generationsRemaining : Nat)
deriving DecidableEq

/-- An HTTP response: status code and JSON body. -/
structure HttpResponse where
  status : Nat
  body : ResponseBody
deriving DecidableEq

/-- The ambient clock, reduced to the two strings the handler derives from it:
today's date and the next-midnight reset time. -/
structure Env where
  today : String
  resetTime : String
deriving DecidableEq

/-- The WhiteSpace and LineTerminator code points `String.prototype.trim`
removes (ECMA-262): TAB, LF, VT, FF, CR, SP, NBSP, the Unicode space
separators, LS, PS and ZWNBSP. -/
def isJsTrimChar (c : Char) : Bool :=
  decide (c.toNat ∈ [9, 10, 11, 12, 13, 32, 0xA0, 0x1680, 0x2000, 0x2001, 0x2002, 0x2003,
    0x2004, 0x2005, 0x2006, 0x2007, 0x2008, 0x2009, 0x200A, 0x2028, 0x2029, 0x202F,
    0x205F, 0x3000, 0xFEFF])

/-- JS `s.split(',')[0]`: the characters before the first comma. -/
def firstCommaField (s : String) : String :=
  String.mk (s.toList.takeWhile (fun c => decide (c ≠ ',')))

/-- JS `s.trim()`: strip leading and trailing whitespace. -/
def jsTrim (s : String) : String :=
  String.mk (((s.toList.dropWhile isJsTrimChar).reverse.dropWhile isJsTrimChar).reverse)

/-- JS `s.startsWith(p)`. -/
def jsStartsWith (s p : String) : Bool :=
  decide (s.toList.take p.toList.length = p.toList)

/-- JavaScript `a || b` on a nullable string: `b` unless `a` is present and
nonempty. -/
def firstTruthy (a : Option String) (b : String) : String :=
  match a with
  | some s => if s = "" then b else s
  | none => b

/-- `validateRequest`: client IP from `x-forwarded-for` (first comma field,
trimmed), else `x-real-ip`, else `cf-connecting-ip`, else `"unknown"`; valid
iff the result is a nonempty string other than `"unknown"`. -/
def validateRequest (req : HttpRequest) : String × Bool :=
  let clientIP := firstTruthy (req.xForwardedFor.map (fun s => jsTrim (firstCommaField s)))
    (firstTruthy req.xRealIp (firstTruthy req.cfConnectingIp "unknown"))
  (clientIP, decide (clientIP ≠ "unknown") && decide (clientIP.length > 0))

/-- The authenticated user the handler resolves: the auth service's answer,
consulted only when an `Authorization: Bearer` header is present; a failed
validation silently degrades to anonymous. -/
def authUserOf (req : HttpRequest) : Option String :=
  match req.authHeader with
  | some h => if jsStartsWith h "Bearer " then req.authUser else none
  | none => none

/-- The cap the handler applies: `AUTHENTICATED_DAILY_LIMIT` when a user was
resolved, else `ANONYMOUS_DAILY_LIMIT` (source `maxGenerations`). -/
def capOf (authUser : Option String) : Nat :=
  if authUser.isSome then AUTHENTICATED_DAILY_LIMIT else ANONYMOUS_DAILY_LIMIT

/-- The usage the check branch derives for the caller: the `user_usage` row
for an authenticated user, the own-row/cross-IP maximum for an anonymous one. -/
def checkUsedFor (env : Env) (st : Store) (authUser : Option String)
    (clientIP anonymousId : String) : Nat :=
  match authUser with
  | some uid => userUsageFor st uid env.today
  | none => checkAnonUsage st clientIP anonymousId env.today

/-- The check branch (source lines 116-175): derive usage, compare against the
cap, report; never touches the store. -/
def checkBranch (env : Env) (st : Store) (authUser : Option String)
    (clientIP anonymousId : String) : HttpResponse :=
  let maxGenerations := capOf authUser
  let generationsUsed := checkUsedFor env st authUser clientIP anonymousId
  ⟨200, .checkResult
    ⟨decide (generationsUsed < maxGenerations), generationsUsed,
     max 0 (maxGenerations - generationsUsed), env.resetTime, authUser.isSome,
     if authUser.isSome then "authenticated" else "anonymous"⟩⟩

/-- The usage the record branch re-derives before recording: the `user_usage`
row for an authenticated user, the own-row/whole-IP maximum for an anonymous
one (source lines 179-209). This is the read phase of the record branch; it
ends at the last read before the guard. -/
def recordUsedFor (env : Env) (st : Store) (authUser : Option String)
    (clientIP anonymousId : String) : Nat :=
  match authUser with
  | some uid => userUsageFor st uid env.today
  | none => recordAnonUsage st clientIP anonymousId env.today

/-- The tail of the record branch after the usage read (source lines 211-274):
guard the previously read `currentUsage` against the cap, then upsert
`currentUsage + 1` and append the audit log entry. Applying it to a store
other than the one `currentUsage` was read from models a concurrent
interleaving at the source's `await` boundary. -/
def recordWritePhase (env : Env) (authUser : Option String)
    (clientIP anonymousId sfp : String) (errorMessage : Option String)
    (currentUsage : Nat) (st : Store) : HttpResponse × Store :=
  let maxGenerations := capOf authUser
  if currentUsage ≥ maxGenerations then
    (⟨429, .limitExceeded "Generation limit exceeded" false currentUsage 0⟩, st)
  else
    let st1 :=
      match authUser with
      | some uid =>
        { st with userUsage := upsertUserUsage st.userUsage uid env.today (currentUsage + 1) }
      | none =>
        { st with anonymousUsage :=
            (upsertAnonUsage st.anonymousUsage anonymousId clientIP sfp env.today
              (currentUsage + 1)) }
    let entry : LogEntry :=
      ⟨authUser, if authUser.isSome then none else some anonymousId, clientIP, sfp, true,
       errorMessage, if authUser.isSome then "authenticated" else "anonymous",
       currentUsage, currentUsage + 1⟩
    let st2 := { st1 with generationLogs := st1.generationLogs ++ [entry] }
    (⟨200, .recordResult true (currentUsage + 1) (maxGenerations - (currentUsage + 1))⟩, st2)

/-- The whole record branch, run without interleaving: read the usage, then
guard/upsert/log against the same store. -/
def recordBranch (env : Env) (st : Store) (authUser : Option String)
    (clientIP anonymousId sfp : String) (errorMessage : Option String) :
    HttpResponse × Store :=
  recordWritePhase env authUser clientIP anonymousId sfp errorMessage
    (recordUsedFor env st authUser clientIP anonymousId) st

/-- The `Deno.serve` handler, as a function from the ambient clock, the
request, and the store state to the response and the successor store state. -/
def handler (env : Env) (req : HttpRequest) (st : Store) : HttpResponse × Store :=
  if req.method = "OPTIONS" then (⟨200, .ok⟩, st)
  else
    let v := validateRequest req
    let clientIP := v.1
    if v.2 = false then (⟨400, .errorMsg "Invalid request"⟩, st)
    else
      let authUser := authUserOf req
      match req.body with
      | none => (⟨500, .errorMsg "Internal server error"⟩, st)
      | some b =>
        if b.fingerprint = "" then (⟨400, .errorMsg "Fingerprint required"⟩, st)
        else
          match sanitizeFingerprint b.fingerprint with
          | none => (⟨500, .errorMsg "Internal server error"⟩, st)
          | some sfp =>
            let anonymousId := secureIdOfSanitized clientIP sfp
            if b.action = "check" then
              (checkBranch env st authUser clientIP anonymousId, st)
            else if b.action = "record" ∧ b.success = true then
              recordBranch env st authUser clientIP anonymousId sfp b.errorMessage
            else
              (⟨400, .errorMsg "Invalid action"⟩, st)

/-- A sequence of requests applied one at a time, each seeing the store the
previous one left behind. -/
def runOps (ops : List (Env × HttpRequest)) (st : Store) : Store :=
  ops.foldl (fun s p => (handler p.1 p.2 s).2) st

/-- The cap invariant on the store: no `anonymous_usage` row exceeds the
anonymous daily cap and no `user_usage` row exceeds the authenticated one. -/
def storeInv (st : Store) : Prop :=
  (∀ r ∈ st.anonymousUsage, r.generationsUsed ≤ ANONYMOUS_DAILY_LIMIT) ∧
  (∀ u ∈ st.userUsage, u.generationsUsed ≤ AUTHENTICATED_DAILY_LIMIT)

/-! ## Helper lemmas -/

/-- Folding the usage sum from an arbitrary accumulator. -/
theorem foldlUsed_init (l : List AnonRow) (c : Nat) :
    l.foldl (fun s r => s + r.generationsUsed) c =
      c + l.foldl (fun s r => s + r.generationsUsed) 0 := by
  induction l generalizing c with
  | nil => simp
  | cons a l ih =>
    simp only [List.foldl]
    rw [ih (c + a.generationsUsed), ih (0 + a.generationsUsed)]
    omega

/-- `sumUsed` on a cons. -/
theorem sumUsed_cons (a : AnonRow) (l : List AnonRow) :
    sumUsed (a :: l) = a.generationsUsed + sumUsed l := by
  unfold sumUsed
  simp only [List.foldl]
  rw [foldlUsed_init]
  omega

/-- A filter by a stronger predicate never sums to more. -/
theorem sumUsed_filter_mono (l : List AnonRow) (p q : AnonRow → Bool)
    (h : ∀ r, q r = true → p r = true) :
    sumUsed (l.filter q) ≤ sumUsed (l.filter p) := by
  induction l with
  | nil => simp
  | cons a l ih =>
    by_cases hq : q a = true
    · rw [List.filter_cons_of_pos hq, List.filter_cons_of_pos (h a hq),
        sumUsed_cons, sumUsed_cons]
      omega
    · rw [List.filter_cons_of_neg (by simpa using hq)]
      by_cases hp : p a = true
      · rw [List.filter_cons_of_pos hp, sumUsed_cons]
        omega
      · rw [List.filter_cons_of_neg (by simpa using hp)]
        exact ih

/-- A row coming out of the `user_usage` upsert is an old row or carries the
written value. -/
theorem mem_upsertUserUsage (rows : List UserRow) (uid today : String) (used : Nat)
    (r : UserRow) (hr : r ∈ upsertUserUsage rows uid today used) :
    r ∈ rows ∨ r.generationsUsed = used := by
  unfold upsertUserUsage at hr
  split at hr
  · rcases List.mem_map.mp hr with ⟨x, hx, hfx⟩
    by_cases hc : x.userId = uid ∧ x.date = today
    · right
      rw [if_pos hc] at hfx
      rw [← hfx]
    · left
      rw [if_neg hc] at hfx
      rw [← hfx]
      exact hx
  · rcases List.mem_append.mp hr with h | h
    · left; exact h
    · right
      rcases List.mem_singleton.mp h with rfl
      rfl

/-- A row coming out of the `anonymous_usage` upsert is an old row or carries
the written value. -/
theorem mem_upsertAnonUsage (rows : List AnonRow) (aid ip fp today : String) (used : Nat)
    (r : AnonRow) (hr : r ∈ upsertAnonUsage rows aid ip fp today used) :
    r ∈ rows ∨ r.generationsUsed = used := by
  unfold upsertAnonUsage at hr
  split at hr
  · rcases List.mem_map.mp hr with ⟨x, hx, hfx⟩
    by_cases hc : x.anonymousId = aid ∧ x.date = today
    · right
      rw [if_pos hc] at hfx
      rw [← hfx]
    · left
      rw [if_neg hc] at hfx
      rw [← hfx]
      exact hx
  · rcases List.mem_append.mp hr with h | h
    · left; exact h
    · right
      rcases List.mem_singleton.mp h with rfl
      rfl

/-- Routing: under the sequential semantics a well-formed check request runs
exactly the check branch and leaves the store untouched. -/
theorem handler_check_route (env : Env) (req : HttpRequest) (st : Store)
    (b : RateLimitRequest) (sfp : String)
    (hm : req.method ≠ "OPTIONS") (hv : (validateRequest req).2 = true)
    (hb : req.body = some b) (hf : b.fingerprint ≠ "")
    (hs : sanitizeFingerprint b.fingerprint = some sfp) (ha : b.action = "check") :
    handler env req st =
      (checkBranch env st (authUserOf req) (validateRequest req).1
        (secureIdOfSanitized (validateRequest req).1 sfp), st) := by
  unfold handler
  rw [if_neg hm]
  simp only [hv, hb, hf, hs, ha]
  simp

/-- Routing: a well-formed record request with `success = true` runs exactly
the record branch. -/
theorem handler_record_route (env : Env) (req : HttpRequest) (st : Store)
    (b : RateLimitRequest) (sfp : String)
    (hm : req.method ≠ "OPTIONS") (hv : (validateRequest req).2 = true)
    (hb : req.body = some b) (hf : b.fingerprint ≠ "")
    (hs : sanitizeFingerprint b.fingerprint = some sfp) (ha : b.action = "record")
    (hsucc : b.success = true) :
    handler env req st =
      recordBranch env st (authUserOf req) (validateRequest req).1
        (secureIdOfSanitized (validateRequest req).1 sfp) sfp b.errorMessage := by
  unfold handler
  rw [if_neg hm]
  simp only [hv, hb, hf, hs, ha, hsucc]
  simp

/-! ## Concrete fixtures used by witnesses and counterexamples -/

/-- A fixed clock: today and the next-midnight reset instant. -/
def envT : Env := ⟨"2026-10-12", "2026-10-13T00:00:00.000Z"⟩

/-- An anonymous check request from 203.0.113.7 with fingerprint `fpA`. -/
def reqCheckAnonA : HttpRequest :=
  ⟨"POST", some "203.0.113.7", none, none, none, none, some ⟨"check", "fpA", false, none⟩⟩

/-- An anonymous check request from 203.0.113.7 with fingerprint `fpB`. -/
def reqCheckAnonB : HttpRequest :=
  ⟨"POST", some "203.0.113.7", none, none, none, none, some ⟨"check", "fpB", false, none⟩⟩

/-- An authenticated check request (valid bearer token for user `u1`). -/
def reqCheckAuth : HttpRequest :=
  ⟨"POST", some "203.0.113.7", none, none, some "Bearer tok", some "u1",
   some ⟨"check", "fpA", false, none⟩⟩

/-- An authenticated successful record request for user `u1`. -/
def reqRecordAuth : HttpRequest :=
  ⟨"POST", some "203.0.113.7", none, none, some "Bearer tok", some "u1",
   some ⟨"record", "fpA", true, none⟩⟩

/-- A record request reporting a failed downstream generation. -/
def reqRecordFailed : HttpRequest :=
  ⟨"POST", some "203.0.113.7", none, none, none, none,
   some ⟨"record", "fpA", false, some "model error"⟩⟩

/-- A request carrying no client-IP header at all. -/
def reqNoIp : HttpRequest :=
  ⟨"POST", none, none, none, none, none, some ⟨"check", "fpA", false, none⟩⟩

/-- A 501-character fingerprint: one character over the configured maximum. -/
def longFp : String := String.mk (List.replicate 501 'a')

/-- A check request whose fingerprint exceeds the configured maximum length. -/
def reqOversized : HttpRequest :=
  ⟨"POST", some "203.0.113.7", none, none, none, none, some ⟨"check", longFp, false, none⟩⟩

/-- A store in which user `u1` has 4 generations recorded today. -/
def stAuth4 : Store := ⟨[⟨"u1", "2026-10-12", 4⟩], [], []⟩

/-- A store in which user `u1` has exhausted today's authenticated cap. -/
def stAuth10 : Store := ⟨[⟨"u1", "2026-10-12", 10⟩], [], []⟩

/-- A store with two anonymous rows on one IP: the caller's own row holding 3
and another fingerprint's row holding 1. -/
def stOwn3Other1 : Store :=
  ⟨[], [⟨"idOwn", "198.51.100.1", "fa", "2026-10-12", 3⟩,
        ⟨"idOther", "198.51.100.1", "fb", "2026-10-12", 1⟩], []⟩

/-! ## C8 — fingerprint sanitization -/

/-- C8: `sanitizeFingerprint` errors exactly on a missing (empty) fingerprint
or one longer than `MAX_FINGERPRINT_LENGTH` (500); otherwise it returns the
input stripped to `[A-Za-z0-9]` and truncated to that maximum, so the result
is all-alphanumeric and no longer than the maximum. -/
theorem sanitizeFingerprint_spec (fp : String) :
    (sanitizeFingerprint fp = none ↔ (fp = "" ∨ fp.length > MAX_FINGERPRINT_LENGTH)) ∧
    (∀ s, sanitizeFingerprint fp = some s →
      s = String.mk ((fp.toList.filter isAlnumChar).take MAX_FINGERPRINT_LENGTH) ∧
      s.toList.all isAlnumChar = true ∧ s.length ≤ MAX_FINGERPRINT_LENGTH) := by
  constructor
  · unfold sanitizeFingerprint
    split
    · simp_all
    · simp_all
  · intro s hs
    unfold sanitizeFingerprint at hs
    split at hs
    · simp at hs
    · have hseq : s = String.mk ((fp.toList.filter isAlnumChar).take MAX_FINGERPRINT_LENGTH) :=
        (Option.some_inj.mp hs).symm
      refine ⟨hseq, ?_, ?_⟩
      · rw [hseq]
        simp only [String.toList, List.all_eq_true]
        intro c hc
        exact List.of_mem_filter (List.mem_of_mem_take hc)
      · rw [hseq]
        show ((fp.toList.filter isAlnumChar).take MAX_FINGERPRINT_LENGTH).length ≤ _
        rw [List.length_take]
        exact Nat.min_le_left _ _

/-- C8 witness: a concrete fingerprint with blanks and punctuation sanitizes
to its alphanumeric core. -/
theorem sanitizeFingerprint_spec_witness :
    sanitizeFingerprint "ab AB-09!" = some "abAB09" ∧
    ("abAB09" = String.mk ((("ab AB-09!" : String).toList.filter isAlnumChar).take
        MAX_FINGERPRINT_LENGTH) ∧
      ("abAB09" : String).toList.all isAlnumChar = true ∧
      ("abAB09" : String).length ≤ MAX_FINGERPRINT_LENGTH) :=
  ⟨by decide, (sanitizeFingerprint_spec "ab AB-09!").2 "abAB09" (by decide)⟩

/-! ## C7 — the anonymous identity -/

/-- C7 counterexample: the fingerprints `"ab-c"` and `"abc"` differ, yet they
produce the same anonymous id, because sanitization erases the hyphen before
hashing — the claim that the id differs for any change in either input fails. -/
theorem createSecureAnonymousId_collision :
    ("ab-c" : String) ≠ "abc" ∧
    createSecureAnonymousId "1.2.3.4" "ab-c" = createSecureAnonymousId "1.2.3.4" "abc" := by
  refine ⟨by decide, ?_⟩
  unfold createSecureAnonymousId
  rw [show sanitizeFingerprint "ab-c" = some "abc" from by decide,
    show sanitizeFingerprint "abc" = some "abc" from by decide]

/-- C7 amended: the anonymous id is the hex-encoded SHA-256 digest of
`ip + ":" + sanitizedFingerprint`, it is deterministic, and any two
fingerprints with the same sanitization (in particular, two computations over
the same pair) yield the same id. -/
theorem createSecureAnonymousId_spec (ip fp s : String)
    (hs : sanitizeFingerprint fp = some s) :
    createSecureAnonymousId ip fp = some (encodeHex (sha256 (utf8Bytes (ip ++ ":" ++ s)))) ∧
    (∀ fp2, sanitizeFingerprint fp2 = some s →
      createSecureAnonymousId ip fp2 = createSecureAnonymousId ip fp) := by
  constructor
  · unfold createSecureAnonymousId secureIdOfSanitized
    rw [hs]
    rfl
  · intro fp2 h2
    unfold createSecureAnonymousId
    rw [hs, h2]

/-- C7 witness: the id of `(1.2.3.4, fpA)` is the digest of `1.2.3.4:fpA`,
and the fingerprint `fp A` (same sanitization) maps to the same id. -/
theorem createSecureAnonymousId_spec_witness :
    sanitizeFingerprint "fpA" = some "fpA" ∧
    createSecureAnonymousId "1.2.3.4" "fp A" = createSecureAnonymousId "1.2.3.4" "fpA" :=
  ⟨by decide,
   (createSecureAnonymousId_spec "1.2.3.4" "fpA" "fpA" (by decide)).2 "fp A" (by decide)⟩

/-! ## C5 — check-time versus record-time usage derivation -/

/-- C5 counterexample: on the same store (own row 3, another same-IP row 1)
the check branch derives 3 but the record branch derives 4 — the record
branch's cross-IP sum does not exclude the identity's own row, so the two
derivations are not the same computation. -/
theorem check_record_derivations_differ :
    checkAnonUsage stOwn3Other1 "198.51.100.1" "idOwn" "2026-10-12" = 3 ∧
    recordAnonUsage stOwn3Other1 "198.51.100.1" "idOwn" "2026-10-12" = 4 ∧
    checkAnonUsage stOwn3Other1 "198.51.100.1" "idOwn" "2026-10-12" ≠
      recordAnonUsage stOwn3Other1 "198.51.100.1" "idOwn" "2026-10-12" := by decide

/-- C5 amended: the record branch derives `currentUsage` as the maximum of the
identity's own daily row and the summed usage of all of today's rows for the
IP, its own row included; since the check branch's cross-IP sum excludes the
own row, the record-time derivation always dominates the check-time one
(and, as the counterexample shows, can exceed it strictly). -/
theorem record_usage_dominates_check (st : Store) (ip aid today : String) :
    recordAnonUsage st ip aid today =
      max (anonOwnUsage st aid today) (sumUsed (ipRowsAll st ip today)) ∧
    checkAnonUsage st ip aid today ≤ recordAnonUsage st ip aid today := by
  refine ⟨rfl, ?_⟩
  have hsum : sumUsed (crossIpRows st ip aid today) ≤ sumUsed (ipRowsAll st ip today) := by
    unfold crossIpRows ipRowsAll
    apply sumUsed_filter_mono
    intro r hr
    simp only [decide_eq_true_eq] at hr ⊢
    exact ⟨hr.1, hr.2.1⟩
  have hc : checkAnonUsage st ip aid today =
      max (anonOwnUsage st aid today)
        (if (crossIpRows st ip aid today).length > 0
          then sumUsed (crossIpRows st ip aid today) else 0) := rfl
  have hr2 : recordAnonUsage st ip aid today =
      max (anonOwnUsage st aid today) (sumUsed (ipRowsAll st ip today)) := rfl
  rw [hc, hr2]
  by_cases hlen : (crossIpRows st ip aid today).length > 0
  · rw [if_pos hlen]
    exact max_le_max (Nat.le_refl _) hsum
  · rw [if_neg hlen]
    exact max_le_max (Nat.le_refl _) (Nat.zero_le _)

/-! ## C3 — concurrent record calls and the lost update -/

/-- C3: the record branch is a read (`recordUsedFor`) followed by a write of
the absolute value `currentUsage + 1` (`recordWritePhase`), not an atomic
storage-layer increment. Interleaving two successful record calls for the
same anonymous identity on the empty store as read-read-write-write makes
both calls read usage 0, return success, and write 1 — the final stored
count is 1, not the claimed `min(2, cap) = 2`: the second increment is lost. -/
theorem record_lost_update :
    (recordWritePhase envT none "203.0.113.7" "idA" "fpA" none
        (recordUsedFor envT emptyStore none "203.0.113.7" "idA") emptyStore).1 =
      ⟨200, .recordResult true 1 4⟩ ∧
    (recordWritePhase envT none "203.0.113.7" "idA" "fpA" none
        (recordUsedFor envT emptyStore none "203.0.113.7" "idA")
        (recordWritePhase envT none "203.0.113.7" "idA" "fpA" none
          (recordUsedFor envT emptyStore none "203.0.113.7" "idA") emptyStore).2).1 =
      ⟨200, .recordResult true 1 4⟩ ∧
    anonOwnUsage
      (recordWritePhase envT none "203.0.113.7" "idA" "fpA" none
        (recordUsedFor envT emptyStore none "203.0.113.7" "idA")
        (recordWritePhase envT none "203.0.113.7" "idA" "fpA" none
          (recordUsedFor envT emptyStore none "203.0.113.7" "idA") emptyStore).2).2
      "idA" "2026-10-12" = 1 ∧
    (1 : Nat) ≠ min 2 ANONYMOUS_DAILY_LIMIT := by decide

/-! ## C10 — record with success = false -/

/-- C10 counterexample: a record request with `success = false` falls through
to the invalid-action branch: HTTP 400, and no attempt-log entry is appended
(the claim that the failed attempt is logged for audit fails). -/
theorem record_failure_not_logged :
    (handler envT reqRecordFailed emptyStore).1 = ⟨400, .errorMsg "Invalid action"⟩ ∧
    (handler envT reqRecordFailed emptyStore).2.generationLogs = [] := by decide

/-- C10 amended: a record request with `success = false` is answered by the
invalid-action branch with HTTP 400 and leaves the store — the quota counters
and the audit log — entirely unchanged; in particular the counter is never
incremented, but no audit entry is appended either. -/
theorem record_failure_rejected (env : Env) (req : HttpRequest) (st : Store)
    (b : RateLimitRequest) (sfp : String)
    (hm : req.method ≠ "OPTIONS") (hv : (validateRequest req).2 = true)
    (hb : req.body = some b) (hf : b.fingerprint ≠ "")
    (hs : sanitizeFingerprint b.fingerprint = some sfp)
    (ha : b.action = "record") (hsucc : b.success = false) :
    handler env req st = (⟨400, .errorMsg "Invalid action"⟩, st) := by
  unfold handler
  rw [if_neg hm]
  simp only [hv, hb, hf, hs, ha, hsucc]
  simp

/-- C10 witness: the concrete failed-record request is rejected with 400 and
the store stays empty. -/
theorem record_failure_rejected_witness :
    (validateRequest reqRecordFailed).2 = true ∧
    handler envT reqRecordFailed emptyStore = (⟨400, .errorMsg "Invalid action"⟩, emptyStore) :=
  ⟨by decide,
   record_failure_rejected envT reqRecordFailed emptyStore ⟨"record", "fpA", false, some "model error"⟩
     "fpA" (by decide) (by decide) rfl (by decide) (by decide) rfl rfl⟩

/-! ## C1 — record at the cap -/

/-- C1: a well-formed record request with `success = true` whose re-derived
current usage has reached the applicable daily cap (5 anonymous, 10
authenticated) is answered with HTTP 429, body `canGenerate = false` and
`generationsRemaining = 0`, and the handler performs no upsert: the store —
in particular every stored `generations_used` — is returned unchanged. -/
theorem record_at_cap_rejected (env : Env) (req : HttpRequest) (st : Store)
    (b : RateLimitRequest) (sfp : String) (u : Nat)
    (hm : req.method ≠ "OPTIONS") (hv : (validateRequest req).2 = true)
    (hb : req.body = some b) (hf : b.fingerprint ≠ "")
    (hs : sanitizeFingerprint b.fingerprint = some sfp)
    (ha : b.action = "record") (hsucc : b.success = true)
    (hu : u = recordUsedFor env st (authUserOf req) (validateRequest req).1
      (secureIdOfSanitized (validateRequest req).1 sfp))
    (hcap : u ≥ capOf (authUserOf req)) :
    capOf (authUserOf req) = (if (authUserOf req).isSome then 10 else 5) ∧
    handler env req st =
      (⟨429, .limitExceeded "Generation limit exceeded" false u 0⟩, st) := by
  refine ⟨rfl, ?_⟩
  rw [handler_record_route env req st b sfp hm hv hb hf hs ha hsucc]
  unfold recordBranch recordWritePhase
  rw [← hu]
  simp only [ge_iff_le, hcap, if_pos]

/-- C1 witness: user `u1` has 10 of 10 used; the successful record request is
rejected with 429 and the store is unchanged. -/
theorem record_at_cap_rejected_witness :
    (10 ≥ capOf (authUserOf reqRecordAuth)) ∧
    handler envT reqRecordAuth stAuth10 =
      (⟨429, .limitExceeded "Generation limit exceeded" false 10 0⟩, stAuth10) :=
  ⟨by decide,
   (record_at_cap_rejected envT reqRecordAuth stAuth10 ⟨"record", "fpA", true, none⟩ "fpA" 10
     (by decide) (by decide) rfl (by decide) (by decide) rfl rfl (by decide) (by decide)).2⟩

/-! ## C4 — the check response -/

/-- C4: a well-formed check request is answered with HTTP 200 and a body in
which the cap is 10 for an authenticated caller and 5 otherwise,
`canGenerate` is exactly `used < cap`, and `generationsRemaining` is
`max(0, cap - used)` (stated over ℤ as well, matching the JS arithmetic),
where `used` is the usage derived for the caller's identity today. -/
theorem check_response_spec (env : Env) (req : HttpRequest) (st : Store)
    (b : RateLimitRequest) (sfp : String) (u c : Nat)
    (hm : req.method ≠ "OPTIONS") (hv : (validateRequest req).2 = true)
    (hb : req.body = some b) (hf : b.fingerprint ≠ "")
    (hs : sanitizeFingerprint b.fingerprint = some sfp) (ha : b.action = "check")
    (hu : u = checkUsedFor env st (authUserOf req) (validateRequest req).1
      (secureIdOfSanitized (validateRequest req).1 sfp))
    (hc : c = capOf (authUserOf req)) :
    c = (if (authUserOf req).isSome then 10 else 5) ∧
    (handler env req st).1 =
      ⟨200, .checkResult
        ⟨decide (u < c), u, max 0 (c - u), env.resetTime, (authUserOf req).isSome,
         if (authUserOf req).isSome then "authenticated" else "anonymous"⟩⟩ ∧
    (decide (u < c) = true ↔ u < c) ∧
    ((max 0 (c - u) : Nat) : Int) = max 0 ((c : Int) - (u : Int)) := by
  subst hu hc
  refine ⟨rfl, ?_, by simp, ?_⟩
  · rw [handler_check_route env req st b sfp hm hv hb hf hs ha]
    rfl
  · rw [Nat.max_comm]
    rcases Nat.le_total (checkUsedFor env st (authUserOf req) (validateRequest req).1
      (secureIdOfSanitized (validateRequest req).1 sfp)) (capOf (authUserOf req)) with h | h
    · rw [Nat.max_eq_left (Nat.zero_le _)]
      omega
    · rw [Nat.max_eq_left (Nat.zero_le _)]
      omega

/-- C4 witness: authenticated caller with 4 of 10 used gets
`canGenerate = true`, `used = 4`, `remaining = 6`. -/
theorem check_response_spec_witness :
    (validateRequest reqCheckAuth).2 = true ∧
    (handler envT reqCheckAuth stAuth4).1 =
      ⟨200, .checkResult ⟨true, 4, 6, envT.resetTime, true, "authenticated"⟩⟩ := by
  refine ⟨by decide, ?_⟩
  have h := check_response_spec envT reqCheckAuth stAuth4 ⟨"check", "fpA", false, none⟩ "fpA"
    4 10 (by decide) (by decide) rfl (by decide) (by decide) rfl (by decide) (by decide)
  rw [h.2.1]
  decide

/-! ## C9 — rejection of invalid requests -/

/-- C9 counterexample: a request whose fingerprint is 501 characters long —
an oversized fingerprint, an `InvalidRequest` in the claim's taxonomy — is
answered with HTTP 500 from the catch-all handler, not with HTTP 400. -/
theorem oversized_fingerprint_yields_500 :
    longFp.length > MAX_FINGERPRINT_LENGTH ∧
    (handler envT reqOversized emptyStore).1 = ⟨500, .errorMsg "Internal server error"⟩ ∧
    (handler envT reqOversized emptyStore).1.status ≠ 400 := by decide

/-- C9 amended: a request with no determinable client IP or a missing (empty)
fingerprint is rejected with HTTP 400 before any store access — the response
does not depend on the store and the store is returned unchanged — while a
malformed body or an oversized fingerprint escapes to the catch-all handler
and is rejected with HTTP 500, likewise without touching the store. -/
theorem invalid_request_rejection (env : Env) (req : HttpRequest) (st : Store)
    (hm : req.method ≠ "OPTIONS") :
    ((validateRequest req).2 = false →
      handler env req st = (⟨400, .errorMsg "Invalid request"⟩, st)) ∧
    ((validateRequest req).2 = true → req.body = none →
      handler env req st = (⟨500, .errorMsg "Internal server error"⟩, st)) ∧
    (∀ b, (validateRequest req).2 = true → req.body = some b → b.fingerprint = "" →
      handler env req st = (⟨400, .errorMsg "Fingerprint required"⟩, st)) ∧
    (∀ b, (validateRequest req).2 = true → req.body = some b → b.fingerprint ≠ "" →
      sanitizeFingerprint b.fingerprint = none →
      handler env req st = (⟨500, .errorMsg "Internal server error"⟩, st)) := by
  refine ⟨?_, ?_, ?_, ?_⟩
  · intro hv
    unfold handler
    rw [if_neg hm]
    simp [hv]
  · intro hv hbody
    unfold handler
    rw [if_neg hm]
    simp [hv, hbody]
  · intro b hv hbody hfp
    unfold handler
    rw [if_neg hm]
    simp [hv, hbody, hfp]
  · intro b hv hbody hfp hsan
    unfold handler
    rw [if_neg hm]
    simp [hv, hbody, hfp, hsan]

/-- C9 witness: the request with no IP header is rejected with 400 and an
unchanged store. -/
theorem invalid_request_rejection_witness :
    (validateRequest reqNoIp).2 = false ∧
    handler envT reqNoIp emptyStore = (⟨400, .errorMsg "Invalid request"⟩, emptyStore) :=
  ⟨by decide,
   (invalid_request_rejection envT reqNoIp emptyStore (by decide)).1 (by decide)⟩

/-! ## C6 — two fingerprints sharing one IP -/

/-- The anonymous id of fingerprint `fpA` behind 203.0.113.7. -/
def idA : String := secureIdOfSanitized "203.0.113.7" "fpA"

/-- The anonymous id of fingerprint `fpB` behind 203.0.113.7. -/
def idB : String := secureIdOfSanitized "203.0.113.7" "fpB"

/-- The C6 scenario store: the two fingerprints' rows on one IP, each holding
3 generations today. -/
def stC6 : Store :=
  ⟨[], [⟨idA, "203.0.113.7", "fpA", "2026-10-12", 3⟩,
        ⟨idB, "203.0.113.7", "fpB", "2026-10-12", 3⟩], []⟩

/-- C6 counterexample: with both rows at 3, a check for fingerprint `fpA`
reports `used = 3` (the maximum of the own row and the cross-IP sum over the
other rows), `remaining = 2` and `canGenerate = true` — not the claimed
`used = 6` with `remaining = 0`. -/
theorem same_ip_check_counterexample :
    (handler envT reqCheckAnonA stC6).1 =
      ⟨200, .checkResult ⟨true, 3, 2, envT.resetTime, false, "anonymous"⟩⟩ ∧
    (3 : Nat) ≠ 6 := by
  refine ⟨?_, by decide⟩
  rw [handler_check_route envT reqCheckAnonA stC6 ⟨"check", "fpA", false, none⟩ "fpA"
    (by decide) (by decide) rfl (by decide) (by decide) rfl]
  have hip : (validateRequest reqCheckAnonA).1 = "203.0.113.7" := by decide
  have hauth : authUserOf reqCheckAnonA = none := rfl
  rw [hip, hauth]
  have hne : idA ≠ idB := by decide
  have hused : checkAnonUsage stC6 "203.0.113.7" idA "2026-10-12" = 3 := by
    simp [checkAnonUsage, anonOwnUsage, crossIpRows, stC6, singleUsage, sumUsed,
      Ne.symm hne]
  show (checkBranch envT stC6 none "203.0.113.7" idA, stC6).1 = _
  simp [checkBranch, checkUsedFor, capOf, envT, ANONYMOUS_DAILY_LIMIT, hused]

/-- C6 amended: in the two-fingerprints-one-IP scenario with both rows at 3,
the check derivation for either fingerprint yields
`max(own row, cross-IP sum over the other rows) = max(3, 3) = 3`, which is
below the anonymous cap of 5, leaving `remaining = 2`; the summed total 6 is
never reported. -/
theorem same_ip_check_reports_max (st : Store) (ip aidA aidB fpA fpB d : String)
    (hne : aidA ≠ aidB)
    (hrows : st.anonymousUsage = [⟨aidA, ip, fpA, d, 3⟩, ⟨aidB, ip, fpB, d, 3⟩]) :
    checkAnonUsage st ip aidA d = 3 ∧ checkAnonUsage st ip aidB d = 3 ∧
    3 < ANONYMOUS_DAILY_LIMIT ∧ max 0 (ANONYMOUS_DAILY_LIMIT - 3) = 2 := by
  refine ⟨?_, ?_, by decide, by decide⟩
  · simp [checkAnonUsage, anonOwnUsage, crossIpRows, hrows, singleUsage, sumUsed,
      Ne.symm hne]
  · simp [checkAnonUsage, anonOwnUsage, crossIpRows, hrows, singleUsage, sumUsed, hne]

/-- C6 witness: the amended scenario at concrete ids `A` and `B`. -/
theorem same_ip_check_reports_max_witness :
    ("A" : String) ≠ "B" ∧
    checkAnonUsage ⟨[], [⟨"A", "ip1", "fa", "d1", 3⟩, ⟨"B", "ip1", "fb", "d1", 3⟩], []⟩
      "ip1" "A" "d1" = 3 :=
  ⟨by decide,
   (same_ip_check_reports_max ⟨[], [⟨"A", "ip1", "fa", "d1", 3⟩, ⟨"B", "ip1", "fb", "d1", 3⟩], []⟩
     "ip1" "A" "B" "fa" "fb" "d1" (by decide) rfl).1⟩

/-! ## C2 — the cap invariant -/

/-- The write phase preserves the cap invariant: the guard admits only a
previously read usage below the cap, and the value written is that usage
plus one. -/
theorem recordWritePhase_preserves_inv (env : Env) (authUser : Option String)
    (clientIP anonymousId sfp : String) (errM : Option String) (cu : Nat) (st : Store)
    (h : storeInv st) :
    storeInv (recordWritePhase env authUser clientIP anonymousId sfp errM cu st).2 := by
  simp only [recordWritePhase]
  split
  · exact h
  · rename_i hlt
    have hcu : cu < capOf authUser := Nat.lt_of_not_le (fun hle => hlt hle)
    cases authUser with
    | some uid =>
      have hcap : capOf (some uid) = AUTHENTICATED_DAILY_LIMIT := rfl
      refine ⟨fun r hr => h.1 r hr, fun u hu => ?_⟩
      rcases mem_upsertUserUsage st.userUsage uid env.today (cu + 1) u hu with hold | hnew
      · exact h.2 u hold
      · rw [hnew]
        rw [hcap] at hcu
        omega
    | none =>
      have hcap : capOf none = ANONYMOUS_DAILY_LIMIT := rfl
      refine ⟨fun r hr => ?_, fun u hu => h.2 u hu⟩
      rcases mem_upsertAnonUsage st.anonymousUsage anonymousId clientIP sfp env.today
        (cu + 1) r hr with hold | hnew
      · exact h.1 r hold
      · rw [hnew]
        rw [hcap] at hcu
        omega

/-- One handler step preserves the cap invariant: every branch either leaves
the store unchanged or runs the record branch, which re-validates the count
inside the same operation that performs the increment. -/
theorem handler_preserves_inv (env : Env) (req : HttpRequest) (st : Store)
    (h : storeInv st) : storeInv (handler env req st).2 := by
  simp only [handler]
  repeat' split
  any_goals exact h
  exact recordWritePhase_preserves_inv env _ _ _ _ _ _ _ h

/-- Running any operation sequence preserves the cap invariant. -/
theorem runOps_preserves_inv (ops : List (Env × HttpRequest)) (st : Store)
    (h : storeInv st) : storeInv (runOps ops st) := by
  induction ops generalizing st with
  | nil => exact h
  | cons p ops ih => exact ih _ (handler_preserves_inv p.1 p.2 st h)

/-- C2: in every state reachable from the empty store by check and record
operations applied one at a time, every `anonymous_usage` row is at most the
anonymous daily cap (5) and every `user_usage` row is at most the
authenticated daily cap (10). -/
theorem quota_cap_invariant (ops : List (Env × HttpRequest)) :
    storeInv (runOps ops emptyStore) :=
  runOps_preserves_inv ops emptyStore
    ⟨fun r hr => absurd hr (List.not_mem_nil r), fun u hu => absurd hu (List.not_mem_nil u)⟩

/-- C2 witness: after one successful authenticated record on the empty store
the invariant holds and the store actually contains a touched row (`u1` at 1
of 10). -/
theorem quota_cap_invariant_witness :
    storeInv (runOps [(envT, reqRecordAuth)] emptyStore) ∧
    (runOps [(envT, reqRecordAuth)] emptyStore).userUsage = [⟨"u1", "2026-10-12", 1⟩] :=
  ⟨quota_cap_invariant [(envT, reqRecordAuth)], by decide⟩
